import Mathlib

/-!
Verification development for the tool-dispatch core of a calculator agent
(`src/main.py`): response parsing, tool dispatch, the arithmetic-evaluator
wrapper, the unit converter, and the algorithm registry/invoker.

Embedding conventions:
* Python/JSON values are embedded as `JVal`; numbers as `PyNum` with the
  `int`/`float` distinction kept, and float values carried as exact
  fractions (type `Q`); the claims settled here never depend on binary64
  rounding, every concrete value involved is exactly representable and far
  from a two-decimal rounding boundary.
* A Python exception escaping a handler is `Except.error` of a `PyError`;
  a handler that catches its exceptions and returns `None` yields
  `Except.ok none`.
* `print` diagnostics are collected in a `logs : List String` field.
-/

/-- An exact fraction.  The denominator is kept positive by every
operation below (no normalisation by gcd, so all arithmetic reduces to
integer arithmetic). -/
structure Q where
  num : Int
  den : Int
deriving DecidableEq

/-- Build a fraction, moving the sign to the numerator. -/
def mkQ (n d : Int) : Q := if d < 0 then ⟨-n, -d⟩ else ⟨n, d⟩

def qOfInt (i : Int) : Q := ⟨i, 1⟩

def qadd (a b : Q) : Q := ⟨a.num * b.den + b.num * a.den, a.den * b.den⟩

def qsub (a b : Q) : Q := ⟨a.num * b.den - b.num * a.den, a.den * b.den⟩

def qmul (a b : Q) : Q := ⟨a.num * b.num, a.den * b.den⟩

def qdiv (a b : Q) : Q := mkQ (a.num * b.den) (a.den * b.num)

def qneg (a : Q) : Q := ⟨-a.num, a.den⟩

def qinv (a : Q) : Q := mkQ a.den a.num

def qIsZero (a : Q) : Bool := a.num == 0

def qpowNat (a : Q) (n : Nat) : Q := ⟨a.num ^ n, a.den ^ n⟩

/-- Floor of a fraction with positive denominator. -/
def qfloor (q : Q) : Int := Int.fdiv q.num q.den

/-- A Python number: `int` or `float` (floats as exact fractions). -/
inductive PyNum where
  | int (i : Int)
  | float (q : Q)
deriving DecidableEq

/-- A decoded JSON value as Python materialises it: `None`, `bool`,
number, string, list, or dict (association list, keys in source order). -/
inductive JVal where
  | null
  | bool (b : Bool)
  | num (n : PyNum)
  | str (s : String)
  | arr (xs : List JVal)
  | obj (fields : List (String × JVal))

/-- Python exceptions that the embedded fragments can raise. -/
inductive PyError where
  | keyError (k : String)
  | typeError (msg : String)
  | attributeError (msg : String)
  | indexError (msg : String)
deriving DecidableEq

/-- The exceptions distinguished by `calculate`'s `except` clauses:
`ZeroDivisionError`, `simpleeval.InvalidExpression`, anything else. -/
inductive SEErr where
  | zeroDivision
  | invalidExpression
  | other (msg : String)
deriving DecidableEq

deriving instance DecidableEq for Except

/-- Outcome of one handler call: the returned value (or escaped
exception) plus the diagnostics printed along the way. -/
structure HRes where
  ret : Except PyError (Option String)
  logs : List String
deriving DecidableEq

def pyNumToQ : PyNum → Q
  | .int i => qOfInt i
  | .float q => q

/-- Display of a `PyNum` under Python `str`.  Integers render exactly;
for floats only integral values (rendered `n.0`) are exercised by any
theorem, the general case is a best-effort stand-in for `repr(float)`. -/
def pyNumDisp : PyNum → String
  | .int i => toString i
  | .float q => if q.den = 1 then toString q.num ++ ".0"
                else toString q.num ++ "/" ++ toString q.den

def sQuote : Char := Char.ofNat 39

mutual
/-- Python `repr` of a decoded JSON value (used by `str` on containers). -/
def pyReprJ : JVal → String
  | .null => "None"
  | .bool b => if b then "True" else "False"
  | .num n => pyNumDisp n
  | .str s => String.mk [sQuote] ++ s ++ String.mk [sQuote]
  | .arr xs => "[" ++ pyReprList xs ++ "]"
  | .obj kvs => "\x7b" ++ pyReprObj kvs ++ "\x7d"

def pyReprList : List JVal → String
  | [] => ""
  | [x] => pyReprJ x
  | x :: xs => pyReprJ x ++ ", " ++ pyReprList xs

def pyReprObj : List (String × JVal) → String
  | [] => ""
  | [(k, v)] => String.mk [sQuote] ++ k ++ String.mk [sQuote] ++ ": " ++ pyReprJ v
  | (k, v) :: kvs =>
      String.mk [sQuote] ++ k ++ String.mk [sQuote] ++ ": " ++ pyReprJ v ++ ", " ++
        pyReprObj kvs
end

/-- Python `str` of a decoded JSON value (as interpolated by f-strings). -/
def pyDisplay : JVal → String
  | .str s => s
  | v => pyReprJ v

/-- Round a fraction to the nearest integer, ties to even (the rounding
used by Python `format(x, ".2f")` on the scaled value). -/
def rndHalfEven (q : Q) : Int :=
  let f := qfloor q
  let t := 2 * (q.num - f * q.den)
  if t < q.den then f
  else if q.den < t then f + 1
  else if f % 2 = 0 then f else f + 1

def natPad2 (m : Nat) : String :=
  if m < 10 then "0" ++ toString m else toString m

/-- Embedding of Python `f"...:.2f"`: fixed two-decimal rendering. -/
def formatQ2 (q : Q) : String :=
  let n := rndHalfEven (qmul q (qOfInt 100))
  if n < 0 then
    "-" ++ toString ((-n).toNat / 100) ++ "." ++ natPad2 ((-n).toNat % 100)
  else
    toString (n.toNat / 100) ++ "." ++ natPad2 (n.toNat % 100)

/-- Association lookup, first match wins (a JSON-decoded Python dict has
distinct keys, so this agrees with `dict.__getitem__`). -/
def alookup {α : Type} : List (String × α) → String → Option α
  | [], _ => none
  | (k, v) :: t, s => if s = k then some v else alookup t s

/-- Python subscript `v[k]` for a string key: dict lookup, raising
`KeyError` on a missing key and `TypeError` on non-dict values. -/
def pyGetItem (v : JVal) (k : String) : Except PyError JVal :=
  match v with
  | .obj kvs =>
      match alookup kvs k with
      | some x => .ok x
      | none => .error (.keyError k)
  | .arr _ => .error (.typeError "list indices must be integers or slices, not str")
  | .str _ => .error (.typeError "string indices must be integers, not str")
  | _ => .error (.typeError "object is not subscriptable")

/-- Python `v == "lit"` for a possibly non-string `v` (false, not an
error, when `v` is not a string). -/
def pyEqStr (v : JVal) (lit : String) : Bool :=
  match v with
  | .str s => s == lit
  | _ => false

/-- ASCII lowercasing of one character (`str.lower` restricted to the
ASCII range; every tag string compared in the source is ASCII). -/
def lowerChar (c : Char) : Char :=
  if 65 ≤ c.toNat ∧ c.toNat ≤ 90 then Char.ofNat (c.toNat + 32) else c

/-- `str.lower` over the character list. -/
def strLower (s : String) : String := String.mk (s.data.map lowerChar)

/-- Python `v.lower()`: `AttributeError` unless `v` is a string. -/
def pyLower (v : JVal) : Except PyError String :=
  match v with
  | .str s => .ok (strLower s)
  | _ => .error (.attributeError "object has no attribute lower")

/-- Python `len(v)` for decoded JSON values. -/
def pyLen (v : JVal) : Except PyError Nat :=
  match v with
  | .arr xs => .ok xs.length
  | .str s => .ok s.length
  | .obj kvs => .ok kvs.length
  | _ => .error (.typeError "object has no len")

/-- Binary operators of the allowed arithmetic grammar. -/
inductive BinOp where
  | add | sub | mul | div | pow | mod
deriving DecidableEq

/-- Python expression syntax as far as the evaluator model distinguishes
it: the arithmetic grammar `number | ( expr ) | expr op expr | -expr`
plus the constructs the spec requires the evaluator to reject (function
calls, identifiers, list syntax). -/
inductive PyExpr where
  | num (n : PyNum)
  | neg (e : PyExpr)
  | pos (e : PyExpr)
  | bin (op : BinOp) (a b : PyExpr)
  | call (fname : String) (args : List PyExpr)
  | name (id : String)
  | listlit (elts : List PyExpr)

/-- True when the expression contains a construct outside the arithmetic
grammar (a call, an identifier, or list syntax). -/
def containsBanned : PyExpr → Bool
  | .num _ => false
  | .neg e => containsBanned e
  | .pos e => containsBanned e
  | .bin _ a b => containsBanned a || containsBanned b
  | .call _ _ => true
  | .name _ => true
  | .listlit _ => true

def pyNeg : PyNum → PyNum
  | .int i => .int (-i)
  | .float q => .float (qneg q)

def pyAdd (a b : PyNum) : PyNum :=
  match a, b with
  | .int x, .int y => .int (x + y)
  | _, _ => .float (qadd (pyNumToQ a) (pyNumToQ b))

def pySub (a b : PyNum) : PyNum :=
  match a, b with
  | .int x, .int y => .int (x - y)
  | _, _ => .float (qsub (pyNumToQ a) (pyNumToQ b))

def pyMul (a b : PyNum) : PyNum :=
  match a, b with
  | .int x, .int y => .int (x * y)
  | _, _ => .float (qmul (pyNumToQ a) (pyNumToQ b))

/-- Python `/`: always a float, `ZeroDivisionError` on a zero divisor. -/
def pyDivE (a b : PyNum) : Except SEErr PyNum :=
  if qIsZero (pyNumToQ b) then .error .zeroDivision
  else .ok (.float (qdiv (pyNumToQ a) (pyNumToQ b)))

/-- Python `%` (floor-style modulo, `ZeroDivisionError` on zero). -/
def pyModE (a b : PyNum) : Except SEErr PyNum :=
  if qIsZero (pyNumToQ b) then .error .zeroDivision
  else
    match a, b with
    | .int x, .int y => .ok (.int (Int.fmod x y))
    | _, _ =>
      let qa := pyNumToQ a
      let qb := pyNumToQ b
      .ok (.float (qsub qa (qmul qb (qOfInt (qfloor (qdiv qa qb))))))

/-- Python `**` with an integer exponent: int stays int for a nonnegative
exponent, a negative exponent gives a float (`ZeroDivisionError` on
`0 ** negative`). -/
def intPowE (a : PyNum) (e : Int) : Except SEErr PyNum :=
  if 0 ≤ e then
    .ok (match a with
      | .int i => .int (i ^ e.toNat)
      | .float q => .float (qpowNat q e.toNat))
  else if qIsZero (pyNumToQ a) then .error .zeroDivision
  else .ok (.float (qpowNat (qinv (pyNumToQ a)) (-e).toNat))

/-- Python `**`.  A non-integral exponent is irrational-valued in general
and outside the exact model; it is mapped to the generic evaluation-error
branch (no theorem below depends on that case). -/
def pyPowE (a b : PyNum) : Except SEErr PyNum :=
  match b with
  | .int e => intPowE a e
  | .float q =>
      if q.den = 1 then
        match intPowE a q.num with
        | .ok r => .ok (.float (pyNumToQ r))
        | .error err => .error err
      else .error (.other "non-integral exponent outside the exact model")

def applyBin (op : BinOp) (x y : PyNum) : Except SEErr PyNum :=
  match op with
  | .add => .ok (pyAdd x y)
  | .sub => .ok (pySub x y)
  | .mul => .ok (pyMul x y)
  | .div => pyDivE x y
  | .pow => pyPowE x y
  | .mod => pyModE x y

/-- Modelled from the spec: the expression walk of `simpleeval` (external
library dependency, not part of `src/`), per the §4.4 contract — evaluate
only the arithmetic grammar and reject any other construct (function
calls, identifiers, list syntax) as `InvalidExpression`. -/
def evalAst : PyExpr → Except SEErr PyNum
  | .num n => .ok n
  | .neg e =>
      match evalAst e with
      | .ok n => .ok (pyNeg n)
      | .error err => .error err
  | .pos e => evalAst e
  | .bin op a b =>
      match evalAst a with
      | .error err => .error err
      | .ok x =>
        match evalAst b with
        | .error err => .error err
        | .ok y => applyBin op x y
  | .call _ _ => .error .invalidExpression
  | .name _ => .error .invalidExpression
  | .listlit _ => .error .invalidExpression

/-- Modelled from the spec: `simpleeval.simple_eval` (external library,
not part of `src/`).  Python's expression parser (`ast.parse`) is
abstracted as the `parse` argument; its result is evaluated by `evalAst`,
and a parse failure propagates as the corresponding error. -/
def simple_eval (parse : String → Except SEErr PyExpr) (s : String) :
    Except SEErr PyNum :=
  match parse s with
  | .ok e => evalAst e
  | .error err => .error err

/-- `parse_response` (src/main.py:142-147) with `json.loads` abstracted
as `loads` (`none` = a `JSONDecodeError`, the only exception strict
decoding of a string raises apart from interpreter recursion limits).
Python `None` — returned both on decode failure and for a decoded JSON
`null` — is `JVal.null`. -/
def parse_response (loads : String → Option JVal) (s : String) :
    JVal × List String :=
  match loads s with
  | some v => (v, [])
  | none => (JVal.null, ["Error: Could not decode model response as JSON"])

/-- The `try`/`except` block of `calculate` (src/main.py:155-169): run
the evaluator, format a success to two decimals, map each caught
exception to `None` plus its diagnostic. -/
def calcEval (parse : String → Except SEErr PyExpr) (s : String)
    (logs : List String) : HRes :=
  match simple_eval parse s with
  | .ok n => ⟨.ok (some ("Result: " ++ formatQ2 (pyNumToQ n))), logs⟩
  | .error .zeroDivision =>
      ⟨.ok none, logs ++ ["Error: Division by zero is not allowed"]⟩
  | .error .invalidExpression =>
      ⟨.ok none, logs ++ ["Error: Could not evaluate expression"]⟩
  | .error (.other m) =>
      ⟨.ok none, logs ++ ["Error: Unexpected error — " ++ m]⟩

/-- `calculate` (src/main.py:150-169).  The payload fields are read
outside the `try` block, exactly as in the source; a non-string
expression makes the library raise a generic error inside the `try`. -/
def calculate (parse : String → Except SEErr PyExpr) (parsed : JVal) : HRes :=
  match pyGetItem parsed "tool" with
  | .error e => ⟨.error e, []⟩
  | .ok tool =>
  match pyGetItem parsed "expression" with
  | .error e => ⟨.error e, []⟩
  | .ok exprv =>
  let logs := ["Calling tool: " ++ pyDisplay tool, "Expression: " ++ pyDisplay exprv]
  match exprv with
  | .str s => calcEval parse s logs
  | _ => ⟨.ok none, logs ++ ["Error: Unexpected error — expression is not a string"]⟩

/-- Numeric coercion for the converter's arithmetic (Python numbers and
bools support `*`; anything else raises `TypeError`). -/
def jvalNum : JVal → Option Q
  | .num n => some (pyNumToQ n)
  | .bool b => some (qOfInt (if b then 1 else 0))
  | _ => none

/-- One matched arm of the converter: apply the formula and format, or
raise `TypeError` when the value does not support arithmetic. -/
def convArith (value : JVal) (fu tu : String) (formula : Q → Q)
    (logs : List String) : HRes :=
  match jvalNum value with
  | some q =>
      ⟨.ok (some ("Result : " ++ pyDisplay value ++ " " ++ fu ++ " = " ++
        formatQ2 (formula q) ++ " " ++ tu)), logs⟩
  | none => ⟨.error (.typeError "unsupported operand type for *"), logs⟩

/-- The `match from_unit + '_' + to_unit` of src/main.py:181-196, with
the six literal cases in source order and the default arm (the match
subject `fu ++ "_" ++ tu` is written out per comparison). -/
def convMatch (value : JVal) (fu tu : String) (logs : List String) : HRes :=
  if fu ++ "_" ++ tu = "km_miles" then
    convArith value fu tu (fun q => qmul q ⟨621371, 1000000⟩) logs
  else if fu ++ "_" ++ tu = "miles_km" then
    convArith value fu tu (fun q => qmul q ⟨160934, 100000⟩) logs
  else if fu ++ "_" ++ tu = "kg_lbs" then
    convArith value fu tu (fun q => qmul q ⟨220462, 100000⟩) logs
  else if fu ++ "_" ++ tu = "lbs_kg" then
    convArith value fu tu (fun q => qmul q ⟨453592, 1000000⟩) logs
  else if fu ++ "_" ++ tu = "celsius_fahrenheit" then
    convArith value fu tu (fun q => qadd (qdiv (qmul q (qOfInt 9)) (qOfInt 5)) (qOfInt 32)) logs
  else if fu ++ "_" ++ tu = "fahrenheit_celsius" then
    convArith value fu tu (fun q => qdiv (qmul (qsub q (qOfInt 32)) (qOfInt 5)) (qOfInt 9)) logs
  else
    ⟨.ok none, logs ++ ["Error: Unsupported conversion — " ++ fu ++ " to " ++ tu]⟩

/-- `convert` (src/main.py:172-198).  There is no `try` block in the
source: a missing field or a non-string unit raises out of the handler. -/
def convert (parsed : JVal) : HRes :=
  match pyGetItem parsed "tool" with
  | .error e => ⟨.error e, []⟩
  | .ok tool =>
  match pyGetItem parsed "value" with
  | .error e => ⟨.error e, []⟩
  | .ok value =>
  match pyGetItem parsed "from_unit" with
  | .error e => ⟨.error e, []⟩
  | .ok fromv =>
  match pyGetItem parsed "to_unit" with
  | .error e => ⟨.error e, []⟩
  | .ok tov =>
  let logs := ["Calling tool: " ++ pyDisplay tool,
    "Converting : " ++ pyDisplay value ++ " " ++ pyDisplay fromv ++ " to " ++ pyDisplay tov]
  match fromv, tov with
  | .str fu, .str tu => convMatch value fu tu logs
  | _, _ => ⟨.error (.typeError "can only concatenate str to str"), logs⟩

/-- The registry of src/main.py:9-33: operation name to the
human-readable description string stored next to the function.  The first
tuple components in the source are the numeric functions
(`math.gcd`, float lambdas, `math.pi`, trigonometry); they are
floating-point/transcendental and every claim about `run_algorithm` is
independent of them, so the invoker below takes the function table as an
explicit `funcs` argument instead. -/
def ALGORITHM_TOOLS : List (String × String) :=
  [("gcd", "inputs: [a, b]"),
   ("lcm", "inputs: [a, b]"),
   ("factorial", "inputs: [n]"),
   ("is_prime", "inputs: [n]"),
   ("nth_root", "inputs: [n, root]"),
   ("log", "inputs: [n, base]"),
   ("log2", "inputs: [n]"),
   ("log10", "inputs: [n]"),
   ("fibonacci", "inputs: [n]"),
   ("circle_area", "inputs: [radius]"),
   ("hypotenuse", "inputs: [a, b]"),
   ("sin", "inputs: [degrees]"),
   ("cos", "inputs: [degrees]"),
   ("tan", "inputs: [degrees]")]

/-- Split a character list at every occurrence of `c`
(Python `str.split` with a one-character separator). -/
def splitOnChar (c : Char) : List Char → List (List Char)
  | [] => [[]]
  | x :: xs =>
    let r := splitOnChar c xs
    if x == c then [] :: r
    else
      match r with
      | [] => [[x]]
      | h :: t => (x :: h) :: t

/-- The call-time arity computation of src/main.py:210:
`int(desc.split('[')[1].rstrip(']').count(',')) + 1`, with Python's
`IndexError` on a description lacking a bracket. -/
def descArity (desc : String) : Except PyError Nat :=
  match (splitOnChar ('[') desc.data)[1]? with
  | none => .error (.indexError "list index out of range")
  | some t => .ok ((t.reverse.dropWhile (fun c => c == (']'))).reverse.count (',') + 1)

/-- Modelled from the spec: the arity table of §4.2, the declared input
counts the registry is compared against ("sin, cos, tan — 1 each"). -/
def specArityTable : List (String × Nat) :=
  [("gcd", 2), ("lcm", 2), ("factorial", 1), ("is_prime", 1),
   ("nth_root", 2), ("log", 2), ("log2", 1), ("log10", 1),
   ("fibonacci", 1), ("circle_area", 1), ("hypotenuse", 2),
   ("sin", 1), ("cos", 1), ("tan", 1)]

/-- Modelled from the spec: the declared arity of an operation, read
from the §4.2 table. -/
def specArity (s : String) : Option Nat := alookup specArityTable s

/-- Dict lookup in the registry (`operation not in ALGORITHM_TOOLS` /
`ALGORITHM_TOOLS[operation]`). -/
def toolLookup (s : String) : Option String := alookup ALGORITHM_TOOLS s

/-- The expected input count `run_algorithm` derives for an operation:
registry lookup followed by the description-string parse.  `none` when
the operation is unknown or its description fails to parse. -/
def expectedArity (s : String) : Option Nat :=
  match toolLookup s with
  | none => none
  | some d =>
    match descArity d with
    | .ok k => some k
    | .error _ => none

def pyUnpack : JVal → Option (List JVal)
  | .arr xs => some xs
  | _ => none

/-- Python `str` of a raised exception, for the `Error: {e}` diagnostic. -/
def errDisp : PyError → String
  | .keyError k => String.mk [sQuote] ++ k ++ String.mk [sQuote]
  | .typeError m => m
  | .attributeError m => m
  | .indexError m => m

def joinComma : List String → String
  | [] => ""
  | [x] => x
  | x :: xs => x ++ ", " ++ joinComma xs

/-- The `try func(*inputs)` call of `run_algorithm`
(src/main.py:217-222): the positional call on the unpacked arguments,
the success format, the caught exception. -/
def runAlgCall (funcs : String → List JVal → Except PyError JVal)
    (opname : String) (inpv : JVal) (xs : List JVal) : HRes :=
  let logs := ["Performing " ++ opname ++ " on " ++ pyDisplay inpv]
  match funcs opname xs with
  | .ok r =>
      ⟨.ok (some ("Result: " ++ opname ++ "(" ++
        joinComma (xs.map pyDisplay) ++ ") = " ++ pyDisplay r)), logs⟩
  | .error e => ⟨.ok none, logs ++ ["Error: " ++ errDisp e]⟩

/-- The `Performing` trace plus argument unpacking of `run_algorithm`
(src/main.py:216-218). -/
def runAlgInvoke (funcs : String → List JVal → Except PyError JVal)
    (opname : String) (inpv : JVal) : HRes :=
  match pyUnpack inpv with
  | none => ⟨.error (.typeError "argument unpacking failed"),
      ["Performing " ++ opname ++ " on " ++ pyDisplay inpv]⟩
  | some xs => runAlgCall funcs opname inpv xs

/-- The `len(inputs) != expected` comparison of src/main.py:212-214. -/
def runAlgCheck (funcs : String → List JVal → Except PyError JVal)
    (opname : String) (inpv : JVal) (expected n : Nat) : HRes :=
  if n ≠ expected then
    ⟨.ok none, ["Error: " ++ opname ++ " expects " ++ toString expected ++
      " input(s), got " ++ toString n]⟩
  else runAlgInvoke funcs opname inpv

/-- The arity check of `run_algorithm` (src/main.py:209-214): parse the
description string, compare against `len(inputs)`. -/
def runAlgArity (funcs : String → List JVal → Except PyError JVal)
    (opname desc : String) (inpv : JVal) : HRes :=
  match descArity desc with
  | .error e => ⟨.error e, []⟩
  | .ok expected =>
    match pyLen inpv with
    | .error e => ⟨.error e, []⟩
    | .ok n => runAlgCheck funcs opname inpv expected n

/-- Registry lookup for the raw `operation` payload value: a non-string
is never a member of a dict with string keys. -/
def toolIndex : JVal → Option String
  | .str s => toolLookup s
  | _ => none

/-- The registry-membership test of `run_algorithm`
(src/main.py:205-207). -/
def runAlgCore (funcs : String → List JVal → Except PyError JVal)
    (opv inpv : JVal) : HRes :=
  match toolIndex opv with
  | none => ⟨.ok none, ["Error: Unknown operation — " ++ pyDisplay opv]⟩
  | some desc => runAlgArity funcs (pyDisplay opv) desc inpv

/-- `run_algorithm` (src/main.py:201-222).  `funcs` is the table of
numeric functions (first tuple components of the source registry); the
membership test, the description-derived arity check and the error
handling are embedded from the source.  The payload fields are read
before any check, outside the `try` block. -/
def run_algorithm (funcs : String → List JVal → Except PyError JVal)
    (parsed : JVal) : HRes :=
  match pyGetItem parsed "operation" with
  | .error e => ⟨.error e, []⟩
  | .ok opv =>
  match pyGetItem parsed "inputs" with
  | .error e => ⟨.error e, []⟩
  | .ok inpv => runAlgCore funcs opv inpv

def liftHR (h : HRes) : Except PyError (Option String × List String) :=
  match h.ret with
  | .ok r => .ok (r, h.logs)
  | .error e => .error e

/-- The three `.lower()`-compared handler branches of the dispatch
(src/main.py:241-246) and the final fall-through (no `else` arm exists in
the source: the result stays the initial empty string, nothing printed). -/
def dispatchLow (parse : String → Except SEErr PyExpr)
    (funcs : String → List JVal → Except PyError JVal) (v : JVal)
    (low : String) : Except PyError (Option String × List String) :=
  if low = "calculator" then liftHR (calculate parse v)
  else if low = "converter" then liftHR (convert v)
  else if low = "algorithm" then liftHR (run_algorithm funcs v)
  else .ok (some "", [])

/-- The tag comparisons of the dispatch (src/main.py:239-246): `none` is
compared case-sensitively without `.lower()`, the rest through
`.lower()` (an `AttributeError` for a non-string tag escapes). -/
def dispatchTag (parse : String → Except SEErr PyExpr)
    (funcs : String → List JVal → Except PyError JVal) (v tool : JVal) :
    Except PyError (Option String × List String) :=
  if pyEqStr tool "none" then
    .ok (some "", ["I can only handle math questions and conversions"])
  else
    match pyLower tool with
    | .error e => .error e
    | .ok low => dispatchLow parse funcs v low

/-- The dispatch fragment of the interactive loop (src/main.py:236-246):
`result` starts as the empty string; Python `None` (decode failure or a
decoded JSON `null`) skips dispatch; otherwise `parsed['tool']` is read
(an exception on a non-dict or missing key escapes) and the tag is
compared. -/
def dispatch_step (parse : String → Except SEErr PyExpr)
    (funcs : String → List JVal → Except PyError JVal) (parsed : JVal) :
    Except PyError (Option String × List String) :=
  match parsed with
  | .null => .ok (some "", [])
  | v =>
    match pyGetItem v "tool" with
    | .error e => .error e
    | .ok tool => dispatchTag parse funcs v tool

/-- A stand-in for the abstracted expression parser, used where a claim
is settled before parsing could matter. -/
def trivParse : String → Except SEErr PyExpr :=
  fun _ => .error (.other "unavailable")

/-- A stand-in for the abstracted numeric-function table, used where a
claim is settled before any function could be invoked. -/
def trivFuncs : String → List JVal → Except PyError JVal :=
  fun _ _ => .error (.typeError "unavailable")

/-- The six supported conversion pairs of §4.5, in table order. -/
def convPairs : List (String × String) :=
  [("km", "miles"), ("miles", "km"), ("kg", "lbs"), ("lbs", "kg"),
   ("celsius", "fahrenheit"), ("fahrenheit", "celsius")]

def mkCalcObj (s : String) : JVal :=
  .obj [("tool", .str "calculator"), ("expression", .str s)]

def mkConvObj (v : JVal) (f t : String) : JVal :=
  .obj [("tool", .str "converter"), ("value", v), ("from_unit", .str f),
    ("to_unit", .str t)]

def mkAlgObj (op : String) (xs : List JVal) : JVal :=
  .obj [("operation", .str op), ("inputs", .arr xs)]


theorem alookup_mem {α : Type} :
    ∀ (l : List (String × α)) (s : String) (v : α),
      alookup l s = some v → (s, v) ∈ l := by
  intro l
  induction l with
  | nil => intro s v h; simp [alookup] at h
  | cons p t ih =>
    intro s v h
    obtain ⟨k, w⟩ := p
    by_cases hs : s = k
    · subst hs
      simp [alookup] at h
      subst h
      exact List.mem_cons_self _ _
    · simp only [alookup, if_neg hs] at h
      exact List.mem_cons_of_mem _ (ih s v h)

theorem evalAst_banned : (e : PyExpr) → containsBanned e = true →
    ∃ err, evalAst e = Except.error err
  | .num _, h => by simp [containsBanned] at h
  | .neg e, h => by
      obtain ⟨err, herr⟩ := evalAst_banned e (by simpa [containsBanned] using h)
      exact ⟨err, by simp [evalAst, herr]⟩
  | .pos e, h => by
      obtain ⟨err, herr⟩ := evalAst_banned e (by simpa [containsBanned] using h)
      exact ⟨err, by simp [evalAst, herr]⟩
  | .bin op a b, h => by
      have h2 : containsBanned a = true ∨ containsBanned b = true := by
        simpa [containsBanned, Bool.or_eq_true] using h
      rcases h2 with ha | hb
      · obtain ⟨err, herr⟩ := evalAst_banned a ha
        exact ⟨err, by simp [evalAst, herr]⟩
      · cases hx : evalAst a with
        | error e2 => exact ⟨e2, by simp [evalAst, hx]⟩
        | ok x =>
          obtain ⟨err, herr⟩ := evalAst_banned b hb
          exact ⟨err, by simp [evalAst, hx, herr]⟩
  | .call _ _, _ => ⟨.invalidExpression, rfl⟩
  | .name _, _ => ⟨.invalidExpression, rfl⟩
  | .listlit _, _ => ⟨.invalidExpression, rfl⟩

def usc : Char := ('_')

theorem usplit : ∀ (a c b d : List Char), usc ∉ a → usc ∉ c →
    a ++ usc :: b = c ++ usc :: d → a = c ∧ b = d := by
  intro a
  induction a with
  | nil =>
    intro c b d _ hc h
    cases c with
    | nil => simpa using h
    | cons y ys =>
      simp only [List.nil_append, List.cons_append, List.cons.injEq] at h
      exact absurd (h.1 ▸ List.mem_cons_self usc (ys ++ usc :: d)) (by
        intro hm
        exact hc (by rw [← h.1]; exact List.mem_cons_self _ _))
  | cons x xs ih =>
    intro c b d ha hc h
    cases c with
    | nil =>
      simp only [List.cons_append, List.nil_append, List.cons.injEq] at h
      exact absurd (by rw [← h.1]; exact List.mem_cons_self x xs : usc ∈ x :: xs) ha
    | cons y ys =>
      simp only [List.cons_append, List.cons.injEq] at h
      obtain ⟨rfl, h2⟩ := h
      have hr := ih ys b d (fun hm => ha (List.mem_cons_of_mem _ hm))
        (fun hm => hc (List.mem_cons_of_mem _ hm)) h2
      exact ⟨by rw [hr.1], hr.2⟩

theorem key_eq (f t u v : String) (hu : usc ∉ u.data) (hv : usc ∉ v.data)
    (h : f ++ "_" ++ t = u ++ "_" ++ v) : f = u ∧ t = v := by
  have hd : f.data ++ usc :: t.data = u.data ++ usc :: v.data := by
    have h2 := congrArg String.data h
    simpa [String.data_append, usc] using h2
  have hu0 : List.count usc u.data = 0 := List.count_eq_zero.mpr hu
  have hv0 : List.count usc v.data = 0 := List.count_eq_zero.mpr hv
  have hcnt := congrArg (List.count usc) hd
  simp only [List.count_append, List.count_cons_self] at hcnt
  have hf : usc ∉ f.data := by
    apply List.count_eq_zero.mp
    omega
  obtain ⟨h1, h2⟩ := usplit f.data u.data t.data v.data hf hu hd
  exact ⟨String.ext h1, String.ext h2⟩

theorem conv_unsupported (v : JVal) (f t : String) (h : (f, t) ∉ convPairs) :
    (convert (mkConvObj v f t)).ret = Except.ok none := by
  have hpair : ∀ u w key : String, usc ∉ u.data → usc ∉ w.data →
      (u, w) ∈ convPairs → key = u ++ "_" ++ w → f ++ "_" ++ t ≠ key := by
    intro u w key hud hwd hm hk he
    obtain ⟨rfl, rfl⟩ := key_eq f t u w hud hwd (he.trans hk)
    exact h hm
  have h1 := hpair "km" "miles" "km_miles" (by decide) (by decide) (by decide) (by decide)
  have h2 := hpair "miles" "km" "miles_km" (by decide) (by decide) (by decide) (by decide)
  have h3 := hpair "kg" "lbs" "kg_lbs" (by decide) (by decide) (by decide) (by decide)
  have h4 := hpair "lbs" "kg" "lbs_kg" (by decide) (by decide) (by decide) (by decide)
  have h5 := hpair "celsius" "fahrenheit" "celsius_fahrenheit" (by decide) (by decide)
    (by decide) (by decide)
  have h6 := hpair "fahrenheit" "celsius" "fahrenheit_celsius" (by decide) (by decide)
    (by decide) (by decide)
  have step : convert (mkConvObj v f t) = convMatch v f t
      ["Calling tool: converter",
       "Converting : " ++ pyDisplay v ++ " " ++ f ++ " to " ++ t] := rfl
  rw [step]
  unfold convMatch
  rw [if_neg h1, if_neg h2, if_neg h3, if_neg h4, if_neg h5, if_neg h6]

theorem desc_arity_of_mem (s d : String) (hm : (s, d) ∈ ALGORITHM_TOOLS) :
    ∃ k, descArity d = Except.ok k ∧ specArity s = some k := by
  have hall : ∀ p ∈ ALGORITHM_TOOLS,
      descArity p.2 = Except.ok ((specArity p.1).getD 0) ∧
        (specArity p.1).isSome = true := by decide
  obtain ⟨h1, h2⟩ := hall (s, d) hm
  obtain ⟨k, hk⟩ := Option.isSome_iff_exists.mp h2
  exact ⟨k, by simpa [hk] using h1, hk⟩

theorem run_alg_mismatch (funcs : String → List JVal → Except PyError JVal)
    (opname : String) (k : Nat) (xs : List JVal)
    (h : expectedArity opname = some k) (hne : xs.length ≠ k) :
    run_algorithm funcs (mkAlgObj opname xs) =
      ⟨.ok none, ["Error: " ++ opname ++ " expects " ++ toString k ++
        " input(s), got " ++ toString xs.length]⟩ := by
  unfold expectedArity at h
  split at h
  case h_1 => exact Option.noConfusion h
  case h_2 d hl =>
    split at h
    case h_2 => exact Option.noConfusion h
    case h_1 k2 hd =>
      injection h with hk
      subst hk
      have hl2 : toolIndex (JVal.str opname) = some d := hl
      have step : run_algorithm funcs (mkAlgObj opname xs) =
          runAlgCore funcs (.str opname) (.arr xs) := rfl
      have step2 : runAlgCore funcs (.str opname) (.arr xs) =
          runAlgArity funcs opname d (.arr xs) := by
        unfold runAlgCore
        rw [hl2]
        rfl
      have step3 : runAlgArity funcs opname d (.arr xs) =
          runAlgCheck funcs opname (.arr xs) k2 xs.length := by
        unfold runAlgArity
        rw [hd]
        rfl
      have step4 : runAlgCheck funcs opname (.arr xs) k2 xs.length =
          ⟨.ok none, ["Error: " ++ opname ++ " expects " ++ toString k2 ++
            " input(s), got " ++ toString xs.length]⟩ := by
        unfold runAlgCheck
        exact if_pos hne
      rw [step, step2, step3, step4]

theorem convMatch_ok (n : PyNum) (fu tu : String) (logs : List String) :
    ∃ r, (convMatch (JVal.num n) fu tu logs).ret = Except.ok r := by
  unfold convMatch
  split_ifs <;> exact ⟨_, rfl⟩

theorem runAlg_ret_ok (funcs : String → List JVal → Except PyError JVal)
    (op : String) (xs : List JVal) :
    ∃ r, (run_algorithm funcs (mkAlgObj op xs)).ret = Except.ok r := by
  have step : run_algorithm funcs (mkAlgObj op xs) =
      runAlgCore funcs (.str op) (.arr xs) := rfl
  rw [step]
  cases hl : toolIndex (JVal.str op) with
  | none =>
    have step2 : runAlgCore funcs (.str op) (.arr xs) =
        ⟨.ok none, ["Error: Unknown operation — " ++ pyDisplay (JVal.str op)]⟩ := by
      unfold runAlgCore
      rw [hl]
    rw [step2]
    exact ⟨none, rfl⟩
  | some desc =>
    obtain ⟨k, hdk, _⟩ := desc_arity_of_mem op desc (alookup_mem ALGORITHM_TOOLS op desc hl)
    have step2 : runAlgCore funcs (.str op) (.arr xs) =
        runAlgArity funcs op desc (JVal.arr xs) := by
      unfold runAlgCore
      rw [hl]
      rfl
    have step3 : runAlgArity funcs op desc (JVal.arr xs) =
        runAlgCheck funcs op (JVal.arr xs) k xs.length := by
      unfold runAlgArity
      rw [hdk]
      rfl
    rw [step2, step3]
    unfold runAlgCheck
    split_ifs with hne
    · exact ⟨none, rfl⟩
    · have step4 : runAlgInvoke funcs op (JVal.arr xs) =
          runAlgCall funcs op (JVal.arr xs) xs := rfl
      rw [step4]
      unfold runAlgCall
      cases hf : funcs op xs with
      | ok r => exact ⟨_, rfl⟩
      | error e => exact ⟨none, rfl⟩

/-- C1: for every expression string whose syntax falls outside the
arithmetic grammar — the parse yields a tree containing function-call
syntax, an identifier, or list syntax, as for `"sqrt(25)"` — `calculate`
returns the absence-of-result failure (`None`), never a numeric result
string; a string the parser rejects outright gets the same treatment. -/
theorem spec_c1 (parse : String → Except SEErr PyExpr) (s : String) :
    (∀ e, parse s = Except.ok e → containsBanned e = true →
      (calculate parse (mkCalcObj s)).ret = Except.ok none) ∧
    (∀ err, parse s = Except.error err →
      (calculate parse (mkCalcObj s)).ret = Except.ok none) := by
  have hcalc : calculate parse (mkCalcObj s) =
      calcEval parse s ["Calling tool: calculator", "Expression: " ++ s] := rfl
  have herr : ∀ err, simple_eval parse s = Except.error err →
      (calcEval parse s ["Calling tool: calculator", "Expression: " ++ s]).ret =
        Except.ok none := by
    intro err hse
    unfold calcEval
    rw [hse]
    cases err <;> rfl
  constructor
  · intro e hp hb
    obtain ⟨err, he⟩ := evalAst_banned e hb
    have hse : simple_eval parse s = Except.error err := by
      unfold simple_eval
      rw [hp]
      exact he
    rw [hcalc]
    exact herr err hse
  · intro err hp
    have hse : simple_eval parse s = Except.error err := by
      unfold simple_eval
      rw [hp]
    rw [hcalc]
    exact herr err hse

/-- C1 witness: `"sqrt(25)"`, parsed as the call `sqrt(25)`, makes
`calculate` return `None`. -/
theorem spec_c1_witness :
    (calculate (fun _ => Except.ok (PyExpr.call "sqrt" [PyExpr.num (PyNum.int 25)]))
      (mkCalcObj "sqrt(25)")).ret = Except.ok none :=
  (spec_c1 (fun _ => Except.ok (PyExpr.call "sqrt" [PyExpr.num (PyNum.int 25)]))
    "sqrt(25)").1 (PyExpr.call "sqrt" [PyExpr.num (PyNum.int 25)]) rfl rfl

/-- C2 counterexample: a request with the unrecognized tag `"foo"` is
dispatched to no handler, produces no failure value and no diagnostic
print: the dispatch returns the untouched empty `result` with an empty
log — the claimed `UnknownTool` failure does not exist in the code. -/
theorem spec_c2_counterexample :
    dispatch_step trivParse trivFuncs (JVal.obj [("tool", JVal.str "foo")]) =
      Except.ok (some "", []) := rfl

/-- C2 amended: a parsed request whose tag is not `"none"` (exactly) and
does not lowercase to one of the three handler tags is silently skipped:
every branch of the dispatch falls through, `result` stays the initial
empty string, and no diagnostic is produced. -/
theorem spec_c2_amended (parse : String → Except SEErr PyExpr)
    (funcs : String → List JVal → Except PyError JVal) (tag : String)
    (h1 : tag ≠ "none") (h2 : strLower tag ≠ "calculator")
    (h3 : strLower tag ≠ "converter") (h4 : strLower tag ≠ "algorithm") :
    dispatch_step parse funcs (JVal.obj [("tool", JVal.str tag)]) =
      Except.ok (some "", []) := by
  have step : dispatch_step parse funcs (JVal.obj [("tool", JVal.str tag)]) =
      dispatchTag parse funcs (JVal.obj [("tool", JVal.str tag)]) (JVal.str tag) := rfl
  have step2 : dispatchTag parse funcs (JVal.obj [("tool", JVal.str tag)]) (JVal.str tag) =
      if pyEqStr (JVal.str tag) "none" = true then
        Except.ok (some "", ["I can only handle math questions and conversions"])
      else dispatchLow parse funcs (JVal.obj [("tool", JVal.str tag)]) (strLower tag) := rfl
  rw [step, step2,
    if_neg (show ¬ pyEqStr (JVal.str tag) "none" = true by simp [pyEqStr, h1])]
  unfold dispatchLow
  rw [if_neg h2, if_neg h3, if_neg h4]

/-- C2 witness: the tag `"bogus"` is silently skipped. -/
theorem spec_c2_witness :
    dispatch_step trivParse trivFuncs (JVal.obj [("tool", JVal.str "bogus")]) =
      Except.ok (some "", []) :=
  spec_c2_amended trivParse trivFuncs "bogus" (by decide) (by decide) (by decide)
    (by decide)

/-- C3 counterexample: a calculator request without the `"expression"`
payload field makes `calculate` raise `KeyError` (the field is read
before the `try` block), so an exception escapes the handler to the
loop. -/
theorem spec_c3_counterexample :
    (calculate trivParse (JVal.obj [("tool", JVal.str "calculator")])).ret =
      Except.error (.keyError "expression") := rfl

/-- C3 amended: with its payload fields present and of the expected
shapes, each handler returns a result string or the absence-of-result
value (every exception raised during evaluation or invocation is caught);
but each handler reads its payload fields outside any `try` block
(`convert` has none at all), so a request missing a payload field raises
a `KeyError` that escapes the handler. -/
theorem spec_c3_amended :
    (∀ (parse : String → Except SEErr PyExpr) (t e : JVal),
      ∃ r, (calculate parse (JVal.obj [("tool", t), ("expression", e)])).ret =
        Except.ok r) ∧
    (∀ (t : JVal) (n : PyNum) (f u : String), ∃ r,
      (convert (JVal.obj [("tool", t), ("value", JVal.num n),
        ("from_unit", JVal.str f), ("to_unit", JVal.str u)])).ret = Except.ok r) ∧
    (∀ (funcs : String → List JVal → Except PyError JVal) (op : String)
      (xs : List JVal),
      ∃ r, (run_algorithm funcs (mkAlgObj op xs)).ret = Except.ok r) ∧
    (calculate trivParse (JVal.obj [("tool", JVal.str "calculator")])).ret =
      Except.error (.keyError "expression") ∧
    (convert (JVal.obj [("tool", JVal.str "converter")])).ret =
      Except.error (.keyError "value") ∧
    (run_algorithm trivFuncs (JVal.obj [("operation", JVal.str "gcd")])).ret =
      Except.error (.keyError "inputs") := by
  refine ⟨?_, ?_, fun funcs op xs => runAlg_ret_ok funcs op xs, rfl, rfl, rfl⟩
  · intro parse t e
    cases e with
    | str s =>
      have step : calculate parse (JVal.obj [("tool", t), ("expression", JVal.str s)]) =
          calcEval parse s ["Calling tool: " ++ pyDisplay t, "Expression: " ++ s] := rfl
      rw [step]
      unfold calcEval
      cases h : simple_eval parse s with
      | ok n => exact ⟨_, rfl⟩
      | error err => cases err <;> exact ⟨none, rfl⟩
    | null => exact ⟨none, rfl⟩
    | bool b => exact ⟨none, rfl⟩
    | num n => exact ⟨none, rfl⟩
    | arr xs => exact ⟨none, rfl⟩
    | obj kvs => exact ⟨none, rfl⟩
  · intro t n f u
    have step : convert (JVal.obj [("tool", t), ("value", JVal.num n),
        ("from_unit", JVal.str f), ("to_unit", JVal.str u)]) =
        convMatch (JVal.num n) f u ["Calling tool: " ++ pyDisplay t,
          "Converting : " ++ pyNumDisp n ++ " " ++ f ++ " to " ++ u] := rfl
    rw [step]
    exact convMatch_ok n f u _

/-- C3 witness: each handler returns a value (no exception) on a
well-shaped payload. -/
theorem spec_c3_witness :
    (∃ r, (calculate trivParse (JVal.obj [("tool", JVal.str "calculator"),
      ("expression", JVal.str "1 + 1")])).ret = Except.ok r) ∧
    (∃ r, (convert (JVal.obj [("tool", JVal.str "converter"),
      ("value", JVal.num (PyNum.int 3)), ("from_unit", JVal.str "kg"),
      ("to_unit", JVal.str "lbs")])).ret = Except.ok r) ∧
    (∃ r, (run_algorithm trivFuncs (mkAlgObj "lcm" [JVal.num (PyNum.int 4)])).ret =
      Except.ok r) :=
  ⟨spec_c3_amended.1 trivParse (JVal.str "calculator") (JVal.str "1 + 1"),
   spec_c3_amended.2.1 (JVal.str "converter") (PyNum.int 3) "kg" "lbs",
   spec_c3_amended.2.2.1 trivFuncs "lcm" [JVal.num (PyNum.int 4)]⟩

/-- C4 counterexample: the registry entry for `"gcd"` carries no integer
arity field — it is the pair of the function and the human-readable
description string `"inputs: [a, b]"` — and the expected input count the
invoker uses at call time (2) is computed by parsing that description
(`desc.split('[')[1].rstrip(']').count(',') + 1`), as the failing
`gcd [21]` call shows. -/
theorem spec_c4_counterexample :
    toolLookup "gcd" = some "inputs: [a, b]" ∧
    descArity "inputs: [a, b]" = Except.ok 2 ∧
    expectedArity "gcd" = some 2 ∧
    (run_algorithm trivFuncs (mkAlgObj "gcd" [JVal.num (PyNum.int 21)])).logs =
      ["Error: gcd expects 2 input(s), got 1"] :=
  ⟨rfl, by decide, by decide, by decide⟩

/-- C4 amended: the expected input count used at call time is inferred by
parsing the registry entry's human-readable description string (one plus
the number of commas in the bracketed list), not read from a declared
integer field; for every registered operation this parsed count equals
the arity declared in the spec's table. -/
theorem spec_c4_amended (name desc : String)
    (hm : (name, desc) ∈ ALGORITHM_TOOLS) :
    ∃ k, descArity desc = Except.ok k ∧ specArity name = some k ∧
      expectedArity name = some k := by
  have hall : ∀ p ∈ ALGORITHM_TOOLS, expectedArity p.1 = specArity p.1 := by decide
  obtain ⟨k, h1, h2⟩ := desc_arity_of_mem name desc hm
  exact ⟨k, h1, h2, (hall (name, desc) hm).trans h2⟩

/-- C4 witness: the `gcd` entry. -/
theorem spec_c4_witness :
    ∃ k, descArity "inputs: [a, b]" = Except.ok k ∧ specArity "gcd" = some k ∧
      expectedArity "gcd" = some k :=
  spec_c4_amended "gcd" "inputs: [a, b]" (by decide)

/-- C5: the converter implements exactly the six table entries with the
stated formulas and two-decimal formatting, returns the
absence-of-result (with the unsupported-conversion diagnostic) for every
other unit pair, and on value 100 from `"km"` to `"miles"` produces
exactly `"Result : 100 km = 62.14 miles"`. -/
theorem spec_c5 :
    (∀ v : PyNum,
      (convert (mkConvObj (.num v) "km" "miles")).ret = Except.ok (some
        ("Result : " ++ pyNumDisp v ++ " " ++ "km" ++ " = " ++
          formatQ2 (qmul (pyNumToQ v) ⟨621371, 1000000⟩) ++ " " ++ "miles")) ∧
      (convert (mkConvObj (.num v) "miles" "km")).ret = Except.ok (some
        ("Result : " ++ pyNumDisp v ++ " " ++ "miles" ++ " = " ++
          formatQ2 (qmul (pyNumToQ v) ⟨160934, 100000⟩) ++ " " ++ "km")) ∧
      (convert (mkConvObj (.num v) "kg" "lbs")).ret = Except.ok (some
        ("Result : " ++ pyNumDisp v ++ " " ++ "kg" ++ " = " ++
          formatQ2 (qmul (pyNumToQ v) ⟨220462, 100000⟩) ++ " " ++ "lbs")) ∧
      (convert (mkConvObj (.num v) "lbs" "kg")).ret = Except.ok (some
        ("Result : " ++ pyNumDisp v ++ " " ++ "lbs" ++ " = " ++
          formatQ2 (qmul (pyNumToQ v) ⟨453592, 1000000⟩) ++ " " ++ "kg")) ∧
      (convert (mkConvObj (.num v) "celsius" "fahrenheit")).ret = Except.ok (some
        ("Result : " ++ pyNumDisp v ++ " " ++ "celsius" ++ " = " ++
          formatQ2 (qadd (qdiv (qmul (pyNumToQ v) (qOfInt 9)) (qOfInt 5)) (qOfInt 32)) ++
          " " ++ "fahrenheit")) ∧
      (convert (mkConvObj (.num v) "fahrenheit" "celsius")).ret = Except.ok (some
        ("Result : " ++ pyNumDisp v ++ " " ++ "fahrenheit" ++ " = " ++
          formatQ2 (qdiv (qmul (qsub (pyNumToQ v) (qOfInt 32)) (qOfInt 5)) (qOfInt 9)) ++
          " " ++ "celsius"))) ∧
    (∀ (v : JVal) (f t : String), (f, t) ∉ convPairs →
      (convert (mkConvObj v f t)).ret = Except.ok none) ∧
    (convert (mkConvObj (.num (.int 100)) "km" "miles")).ret =
      Except.ok (some "Result : 100 km = 62.14 miles") :=
  ⟨fun _ => ⟨rfl, rfl, rfl, rfl, rfl, rfl⟩,
   fun v f t h => conv_unsupported v f t h,
   by decide⟩

/-- C5 witness: an unsupported pair yields the absence-of-result, and a
supported pair yields the formatted formula result. -/
theorem spec_c5_witness :
    (convert (mkConvObj (JVal.num (PyNum.int 1)) "miles" "kg")).ret =
      Except.ok none ∧
    (convert (mkConvObj (JVal.num (PyNum.int 2)) "km" "miles")).ret =
      Except.ok (some ("Result : " ++ pyNumDisp (PyNum.int 2) ++ " " ++ "km" ++ " = " ++
        formatQ2 (qmul (pyNumToQ (PyNum.int 2)) ⟨621371, 1000000⟩) ++ " " ++ "miles")) :=
  ⟨spec_c5.2.1 (JVal.num (PyNum.int 1)) "miles" "kg" (by decide),
   (spec_c5.1 (PyNum.int 2)).1⟩

/-- C6 counterexample: `convert` with value 100 from `"KM"` to `"Miles"`
— equal to the supported `("km", "miles")` pair up to letter case —
reports an unsupported conversion instead of applying the formula: the
lookup is case-sensitive. -/
theorem spec_c6_counterexample :
    (convert (mkConvObj (JVal.num (PyNum.int 100)) "KM" "Miles")).ret =
      Except.ok none ∧
    (convert (mkConvObj (JVal.num (PyNum.int 100)) "KM" "Miles")).logs =
      ["Calling tool: converter", "Converting : 100 KM to Miles",
       "Error: Unsupported conversion — KM to Miles"] := by
  exact ⟨rfl, by decide⟩

/-- C6 amended: unit-pair lookup is case-sensitive.  A pair that equals a
supported pair only up to letter case (without being exactly equal to
it) yields the unsupported-conversion absence-of-result; exactly the six
lowercase table pairs apply their formulas. -/
theorem spec_c6_amended :
    (∀ (v : JVal) (f t : String), (strLower f, strLower t) ∈ convPairs →
      (f, t) ∉ convPairs → (convert (mkConvObj v f t)).ret = Except.ok none) ∧
    (∀ (v : PyNum) (f t : String), (f, t) ∈ convPairs →
      ∃ s, (convert (mkConvObj (JVal.num v) f t)).ret = Except.ok (some s)) := by
  constructor
  · intro v f t _ h2
    exact conv_unsupported v f t h2
  · intro v f t hm
    simp only [convPairs, List.mem_cons, List.not_mem_nil, or_false,
      Prod.mk.injEq] at hm
    rcases hm with ⟨rfl, rfl⟩ | ⟨rfl, rfl⟩ | ⟨rfl, rfl⟩ | ⟨rfl, rfl⟩ |
      ⟨rfl, rfl⟩ | ⟨rfl, rfl⟩
    all_goals exact ⟨_, rfl⟩

/-- C6 witness: `("KM", "Miles")` lowercases to a supported pair yet is
rejected; `("km", "miles")` succeeds. -/
theorem spec_c6_witness :
    (convert (mkConvObj (JVal.null) "KM" "Miles")).ret = Except.ok none ∧
    (∃ s, (convert (mkConvObj (JVal.num (PyNum.int 5)) "km" "miles")).ret =
      Except.ok (some s)) :=
  ⟨spec_c6_amended.1 JVal.null "KM" "Miles" (by decide) (by decide),
   spec_c6_amended.2 (PyNum.int 5) "km" "miles" (by decide)⟩

/-- C7: for every operation of the declared arity table and every input
list of a different length, `run_algorithm` returns the absence-of-result
with the diagnostic naming the expected and the actual count, whatever
the function table holds — the operation's function is never consulted. -/
theorem spec_c7 (funcs : String → List JVal → Except PyError JVal)
    (name : String) (xs : List JVal) (k : Nat)
    (hk : specArity name = some k) (hne : xs.length ≠ k) :
    run_algorithm funcs (mkAlgObj name xs) =
      ⟨.ok none, ["Error: " ++ name ++ " expects " ++ toString k ++
        " input(s), got " ++ toString xs.length]⟩ := by
  have hall : ∀ p ∈ specArityTable, expectedArity p.1 = some p.2 := by decide
  have he : expectedArity name = some k :=
    hall (name, k) (alookup_mem specArityTable name k hk)
  exact run_alg_mismatch funcs name k xs he hne

/-- C7 witness: `gcd` on the single input `[21]` fails with expected 2,
got 1, and the function table is never consulted. -/
theorem spec_c7_witness :
    run_algorithm trivFuncs (mkAlgObj "gcd" [JVal.num (PyNum.int 21)]) =
      ⟨.ok none, ["Error: gcd expects 2 input(s), got 1"]⟩ :=
  (spec_c7 trivFuncs "gcd" [JVal.num (PyNum.int 21)] 2 rfl (by decide)).trans
    (by decide)

/-- C9: on every input on which the decoder fails, `parse_response`
returns Python `None` (the absence-of-result) together with the one-line
diagnostic; in the embedding the handler is total, no decoding exception
reaches the caller. -/
theorem spec_c9 (loads : String → Option JVal) (s : String)
    (h : loads s = none) :
    parse_response loads s =
      (JVal.null, ["Error: Could not decode model response as JSON"]) := by
  unfold parse_response
  rw [h]

/-- C9 witness: a failing decoder yields the `None`-plus-diagnostic
outcome. -/
theorem spec_c9_witness :
    parse_response (fun _ => none) "not json" =
      (JVal.null, ["Error: Could not decode model response as JSON"]) :=
  spec_c9 (fun _ => none) "not json" rfl

/-- C10: `parse_response` passes every successfully decoded value
through untouched, whatever its top-level type — no `ToolRequest` shape
is enforced — and a non-object value then reaches the tag dispatch,
where subscripting it with `'tool'` raises `TypeError`. -/
theorem spec_c10 :
    (∀ (loads : String → Option JVal) (s : String) (v : JVal),
      loads s = some v → parse_response loads s = (v, [])) ∧
    (∀ (parse : String → Except SEErr PyExpr)
      (funcs : String → List JVal → Except PyError JVal) (xs : List JVal),
      dispatch_step parse funcs (JVal.arr xs) =
        Except.error (.typeError "list indices must be integers or slices, not str")) ∧
    (∀ (parse : String → Except SEErr PyExpr)
      (funcs : String → List JVal → Except PyError JVal) (n : PyNum),
      dispatch_step parse funcs (JVal.num n) =
        Except.error (.typeError "object is not subscriptable")) := by
  refine ⟨?_, ?_, ?_⟩
  · intro loads s v h
    unfold parse_response
    rw [h]
  · intro parse funcs xs
    rfl
  · intro parse funcs n
    rfl

/-- C10 witness: the decoded array `[1, 2]` is returned as is, and the
dispatch step raises `TypeError` subscripting it. -/
theorem spec_c10_witness :
    parse_response
      (fun _ => some (JVal.arr [JVal.num (PyNum.int 1), JVal.num (PyNum.int 2)]))
      "[1, 2]" = (JVal.arr [JVal.num (PyNum.int 1), JVal.num (PyNum.int 2)], []) ∧
    dispatch_step trivParse trivFuncs
      (JVal.arr [JVal.num (PyNum.int 1), JVal.num (PyNum.int 2)]) =
      Except.error (.typeError "list indices must be integers or slices, not str") :=
  ⟨spec_c10.1 _ "[1, 2]" _ rfl, spec_c10.2.1 trivParse trivFuncs _⟩
